import Mathlib

/-!
Shallow embedding of the `used-tempon` repository (files `src/tempo_api.py`
and `src/mcp_server.py`).

Modelling conventions:
- Network I/O is made explicit: every remote call receives the decoded HTTP
  response as an input (`HttpResult`), either a non-2xx failure carrying
  status and body, or a decoded JSON payload.
- Python exceptions are modelled by the `Exc` type and functions that may
  raise return `Except Exc _`.  An uncaught exception escaping a command
  shows up as `.error`.
- Human-readable string formatting is out of scope for the spec (§1), so
  command results are structured values carrying exactly the data the
  Python code interpolates into its strings; the payloads mirror the
  source line by line.
- Python `int(a * p / 100)` on non-negative ints is truncation of the float
  quotient; over the representable range it equals floor division, modelled
  here as `Nat` division.
- JSON dictionaries are modelled as structures with `Option` fields for
  keys read via `.get` (or whose absence raises `KeyError` when indexed
  directly), and association lists for the string-keyed maps.
-/

namespace UsedTempon

/-- Python exceptions that the code raises or catches.  Payloads are the
data interpolated into the Python exception messages. -/
inductive ResolveFailure where
  | jiraCredsMissing (person : String)
  | searchFailed (status : Nat) (body : String)
  | noActiveMatch (person : String)
  | multipleMatches (person : String) (candidates : List (String × String))
  deriving DecidableEq

/-- Failure kinds of `load_config` raised as Python `RuntimeError`. -/
inductive ConfigFailure where
  | fileNotFound
  | missingToken
  deriving DecidableEq

/-- Python exception model: `TempoAPIError`, `ValueError` (raised by
`_resolve_person`), `KeyError` (dict indexing), `IndexError` (list
indexing), `json.JSONDecodeError` and `RuntimeError` (config load). -/
inductive Exc where
  | tempoAPIError (status : Nat) (body : String)
  | valueError (kind : ResolveFailure)
  | keyError (key : String)
  | indexError
  | jsonDecodeError (msg : String)
  | runtimeError (kind : ConfigFailure)
  deriving DecidableEq

/-- An HTTP exchange as seen after the transport: non-2xx failure with
status code and body text, or a 2xx response with decoded JSON payload. -/
inductive HttpResult (α : Type) where
  | failure (status : Nat) (body : String)
  | success (payload : α)

/-- True when the response was 2xx (`resp.ok` in Python). -/
def HttpResult.isSuccess {α : Type} : HttpResult α → Bool
  | .failure _ _ => false
  | .success _ => true

/-- Source `tempo_api._check_response`: raise `TempoAPIError` on non-2xx,
otherwise hand back the decoded payload (`resp.json()`). -/
def checkResponse {α : Type} : HttpResult α → Except Exc α
  | .failure status body => .error (.tempoAPIError status body)
  | .success payload => .ok payload

/-- One element of the `results` array of the user-schedule response.
`requiredSeconds` and `type` are read with `.get`, hence `Option`. -/
structure ScheduleEntry where
  requiredSeconds : Option Nat
  dayType : Option String

/-- A worklog dictionary as returned by the worklogs endpoint, and also the
response shape of a worklog creation.  All keys the code reads via `.get`
are `Option`; `authorId` models `wl.get("author", \x7b\x7d).get("accountId")` and
`issueId` models `wl.get("issue", \x7b\x7d).get("id")`. -/
structure RawWorklog where
  tempoWorklogId : Option Nat
  issueId : Option Int
  timeSpentSeconds : Option Nat
  description : Option String
  authorId : Option String

/-- A Jira user dictionary as decoded from the identity-service response,
before `search_jira_users` normalises it.  Every key is `Option`:
`accountId` is read by direct indexing (KeyError when absent), the rest
via `.get` with defaults. -/
structure RawJiraUser where
  accountId : Option String
  displayName : Option String
  emailAddress : Option String
  active : Option Bool
  accountType : Option String

/-- A normalised Jira user as built by `search_jira_users`. -/
structure JiraUser where
  accountId : String
  displayName : String
  emailAddress : String
  active : Bool
  deriving DecidableEq

/-- Source `tempo_api.get_user_schedule`: check the response, index
`["results"]` (KeyError when the key is absent) and `[0]` (IndexError when
the results array is empty). -/
def get_user_schedule (resp : HttpResult (Option (List ScheduleEntry))) :
    Except Exc ScheduleEntry :=
  match checkResponse resp with
  | .error e => .error e
  | .ok none => .error (.keyError "results")
  | .ok (some []) => .error .indexError
  | .ok (some (e :: _)) => .ok e

/-- Source `tempo_api.get_worklogs_for_date`: check the response, read
`results` with a `[]` default, and filter client-side to the worklogs whose
author account id equals the requested one (Python `==` between a possibly
missing value and the requested string). -/
def get_worklogs_for_date (resp : HttpResult (Option (List RawWorklog)))
    (account_id : String) : Except Exc (List RawWorklog) :=
  match checkResponse resp with
  | .error e => .error e
  | .ok payload =>
    .ok ((payload.getD []).filter (fun wl => wl.authorId == some account_id))

/-- Source `tempo_api.create_worklog`: the POST body it sends.  The
`startTime` field is the fixed `"08:00:00"`. -/
structure CreateCall where
  authorAccountId : String
  issueId : Int
  timeSpentSeconds : Nat
  startDate : String
  startTime : String
  description : String

/-- Source `tempo_api.create_worklog`, response side: check the response
and return the decoded worklog dictionary. -/
def create_worklog (resp : HttpResult RawWorklog) : Except Exc RawWorklog :=
  checkResponse resp

/-- The body of the list comprehension of `search_jira_users`, applied to
the already-filtered entries: the direct index on the `accountId` key
raises a `KeyError` when the key is absent, the remaining keys are read
with `.get` defaults (`displayName`/`emailAddress` default `""`, `active`
default `True`). -/
def buildJiraUsers : List RawJiraUser → Except Exc (List JiraUser)
  | [] => .ok []
  | u :: rest =>
    match u.accountId with
    | none => .error (.keyError "accountId")
    | some aid =>
      match buildJiraUsers rest with
      | .error e => .error e
      | .ok tail =>
        .ok ({ accountId := aid
               displayName := u.displayName.getD ""
               emailAddress := u.emailAddress.getD ""
               active := u.active.getD true } :: tail)

/-- Source `tempo_api.search_jira_users`: check the response
(`_check_response` raises `TempoAPIError` on non-2xx), keep only the
entries whose `accountType` is `"atlassian"`, and normalise each with
`buildJiraUsers` (which can raise the `KeyError` of the direct
`accountId` index). -/
def search_jira_users (resp : HttpResult (List RawJiraUser)) :
    Except Exc (List JiraUser) :=
  match resp with
  | .failure status body => .error (.tempoAPIError status body)
  | .success users =>
    buildJiraUsers (users.filter (fun u => u.accountType == some "atlassian"))

/-- A proleptic Gregorian calendar date, modelling Python `datetime.date`. -/
structure PyDate where
  year : Nat
  month : Nat
  day : Nat
  deriving DecidableEq

/-- Gregorian leap-year rule. -/
def isLeapYear (y : Nat) : Bool :=
  (y % 4 == 0 && y % 100 != 0) || y % 400 == 0

/-- Number of days of a month in the Gregorian calendar. -/
def daysInMonth (y m : Nat) : Nat :=
  if m == 2 then (if isLeapYear y then 29 else 28)
  else if m == 4 || m == 6 || m == 9 || m == 11 then 30
  else 31

/-- The previous calendar day: `d - timedelta(days=1)`. -/
def PyDate.pred (d : PyDate) : PyDate :=
  if d.day > 1 then { d with day := d.day - 1 }
  else if d.month > 1 then
    { year := d.year, month := d.month - 1, day := daysInMonth d.year (d.month - 1) }
  else
    { year := d.year - 1, month := 12, day := 31 }

/-- Zero-pad a number to two digits. -/
def pad2 (n : Nat) : String :=
  if n < 10 then "0" ++ toString n else toString n

/-- Zero-pad a number to four digits. -/
def pad4 (n : Nat) : String :=
  if n < 10 then "000" ++ toString n
  else if n < 100 then "00" ++ toString n
  else if n < 1000 then "0" ++ toString n
  else toString n

/-- Python `date.isoformat()`: `YYYY-MM-DD`. -/
def PyDate.isoformat (d : PyDate) : String :=
  pad4 d.year ++ "-" ++ pad2 d.month ++ "-" ++ pad2 d.day

/-- Source `mcp_server.parse_date`.  `today` is the ambient current local
date (`date.today()`); `d = none` models Python `None`.  Python
`if not d or d == "today"` is true for `None`, `""` and `"today"`. -/
def parse_date (today : PyDate) (d : Option String) : String :=
  match d with
  | none => today.isoformat
  | some s =>
    if s == "" || s == "today" then today.isoformat
    else if s == "yesterday" then today.pred.isoformat
    else s

/-- One entry of a preset: the keys the code reads from the entry dict.
(The entries are read with direct indexing; the data model of the spec fixes
this shape, so the fields are total here.) -/
structure PresetEntry where
  issueKey : String
  percentage : Nat
  description : String
  deriving DecidableEq

/-- The configuration JSON file as parsed by `json.load`: every key may be
absent.  `issueIds` is `Option` because `tempo_log_time` indexes
`CONFIG["issueIds"]` directly (KeyError when absent); `presets` is read
everywhere with `.get("presets", \x7b\x7d)` so absence and `\x7b\x7d` coincide. -/
structure ConfigFile where
  tempoToken : Option String
  accountId : Option String
  baseUrl : Option String
  issueIds : Option (List (String × Int))
  presets : List (String × List PresetEntry)
  jiraBaseUrl : Option String
  jiraEmail : Option String
  jiraToken : Option String

/-- The in-memory configuration after `load_config` succeeded: the token is
guaranteed present (checked) with the environment override applied; every
other key keeps its file shape. -/
structure Config where
  tempoToken : String
  accountId : Option String
  baseUrl : Option String
  issueIds : Option (List (String × Int))
  presets : List (String × List PresetEntry)
  jiraBaseUrl : Option String
  jiraEmail : Option String
  jiraToken : Option String

/-- Python truthiness of an optional string: `None` and `""` are falsy. -/
def strTruthy : Option String → Bool
  | none => false
  | some s => s != ""

/-- Source `mcp_server.load_config`.  `fileExists` models
`os.path.exists(config_path)`; `file` is the outcome of `json.load` (its
error is a `json.JSONDecodeError` message); `envToken` is
`os.environ.get("TEMPO_TOKEN")`.  The `tempoToken` presence check runs on
the file contents BEFORE the environment override, and the override fires
only when the variable is truthy (`if env_token:`). -/
def load_config (fileExists : Bool) (file : Except String ConfigFile)
    (envToken : Option String) : Except Exc Config := do
  if !fileExists then
    .error (.runtimeError .fileNotFound)
  else
    match file with
    | .error msg => .error (.jsonDecodeError msg)
    | .ok cf =>
      match cf.tempoToken with
      | none => .error (.runtimeError .missingToken)
      | some fileToken =>
        let token := match envToken with
          | some et => if et ≠ "" then et else fileToken
          | none => fileToken
        .ok { tempoToken := token
              accountId := cf.accountId
              baseUrl := cf.baseUrl
              issueIds := cf.issueIds
              presets := cf.presets
              jiraBaseUrl := cf.jiraBaseUrl
              jiraEmail := cf.jiraEmail
              jiraToken := cf.jiraToken }

/-- The environment a command runs against: the decoded HTTP responses the
remote services would return for the calls the command makes.
`createResp i` is the response to the i-th worklog-creation POST. -/
structure Env where
  scheduleResp : HttpResult (Option (List ScheduleEntry))
  worklogsResp : HttpResult (Option (List RawWorklog))
  jiraSearchResp : HttpResult (List RawJiraUser)
  createResp : Nat → HttpResult RawWorklog

/-- Source `mcp_server._resolve_person`.  Empty input resolves to the
configured default account (`CONFIG["accountId"]`, a KeyError when
absent) with the label `"you"`; input containing a colon passes through;
otherwise a name search runs against the identity service, which requires
the three Jira credential keys to be truthy.  All user-facing failures
are `ValueError`s. -/
def resolve_person (cfg : Config) (searchResp : HttpResult (List RawJiraUser))
    (person : String) : Except Exc (String × String) :=
  if person = "" then
    match cfg.accountId with
    | none => .error (.keyError "accountId")
    | some a => .ok (a, "you")
  else if person.contains ':' then
    .ok (person, person)
  else if !(strTruthy cfg.jiraBaseUrl && strTruthy cfg.jiraEmail
      && strTruthy cfg.jiraToken) then
    .error (.valueError (.jiraCredsMissing person))
  else
    match search_jira_users searchResp with
    | .error (.tempoAPIError status body) =>
      .error (.valueError (.searchFailed status body))
    | .error e => .error e
    | .ok users =>
      match users.filter (fun u => u.active) with
      | [] => .error (.valueError (.noActiveMatch person))
      | [u] => .ok (u.accountId, u.displayName)
      | u1 :: u2 :: rest =>
        .error (.valueError (.multipleMatches person
          ((u1 :: u2 :: rest).map (fun u => (u.displayName, u.emailAddress)))))

/-- One summary line of a successful `tempo_log_time`: issue key, the
description used, the seconds logged (rendered as hours in the source) and
the `tempoWorklogId` of the creation response (`"?"` when absent). -/
structure LogLine where
  issueKey : String
  description : String
  seconds : Nat
  worklogId : Option Nat

/-- The result text of `tempo_log_time`, one constructor per `return`
statement, carrying the data the source interpolates. -/
inductive LogResult where
  | configError (e : Exc)
  | resolveError (kind : ResolveFailure)
  | unknownPreset (typ : String) (available : List String)
  | zeroRequiredWarning (date : String)
  | alreadyLoggedWarning (count : Nat) (date : String)
  | success (totalSeconds : Nat) (forLabel : Option String) (date : String)
      (lines : List LogLine)
  | apiError (status : Nat) (body : String)

/-- The worklog-creation loop of `tempo_log_time` (the `for entry in
preset_entries` body): per entry, compute the seconds, look the issue key
up in the issue mapping (KeyError when absent), pick the description
(truthy override wins), POST the creation and record a summary line.
Returns the creation calls attempted so far together with either the
summary lines or the exception that aborted the loop. -/
def logEntries (env : Env) (issueIds : List (String × Int)) (required : Nat)
    (descOverride : String) (account_id date : String) :
    List PresetEntry → Nat → List CreateCall × Except Exc (List LogLine)
  | [], _ => ([], .ok [])
  | entry :: rest, i =>
    match issueIds.lookup entry.issueKey with
    | none => ([], .error (.keyError entry.issueKey))
    | some issue_id =>
      match create_worklog (env.createResp i) with
      | .error e =>
        ([{ authorAccountId := account_id, issueId := issue_id
            timeSpentSeconds := required * entry.percentage / 100
            startDate := date, startTime := "08:00:00"
            description := if descOverride ≠ "" then descOverride
              else entry.description }], .error e)
      | .ok resp =>
        ({ authorAccountId := account_id, issueId := issue_id
           timeSpentSeconds := required * entry.percentage / 100
           startDate := date, startTime := "08:00:00"
           description := if descOverride ≠ "" then descOverride
             else entry.description } ::
          (logEntries env issueIds required descOverride account_id date rest
            (i + 1)).1,
         (logEntries env issueIds required descOverride account_id date rest
            (i + 1)).2.map
          (fun tailLines =>
            { issueKey := entry.issueKey
              description := if descOverride ≠ "" then descOverride
                else entry.description
              seconds := required * entry.percentage / 100
              worklogId := resp.tempoWorklogId } :: tailLines))

/-- Arguments of `tempo_log_time`; `typ` is the source parameter `type`
(a Lean keyword). -/
structure LogArgs where
  typ : String
  date : String := "today"
  description : String := ""
  force : Bool := false
  person : String := ""

/-- Source `mcp_server.tempo_log_time`.  `cfg` is the module-level
`CONFIG`/`_CONFIG_ERROR` pair and `today` the ambient current date.
Returns the list of worklog-creation calls attempted together with the
command result; an uncaught exception is `.error` (the source catches only
`ValueError` around the resolver and `TempoAPIError` around the API
calls). -/
def tempo_log_time (cfg? : Except Exc Config) (today : PyDate) (env : Env)
    (args : LogArgs) : List CreateCall × Except Exc LogResult :=
  match cfg? with
  | .error e => ([], .ok (.configError e))
  | .ok cfg =>
    let parsed_date := parse_date today (some args.date)
    match resolve_person cfg env.jiraSearchResp args.person with
    | .error (.valueError k) => ([], .ok (.resolveError k))
    | .error e => ([], .error e)
    | .ok (account_id, person_label) =>
      match cfg.presets.lookup args.typ with
      | none => ([], .ok (.unknownPreset args.typ (cfg.presets.map (·.1))))
      | some preset_entries =>
        match get_user_schedule env.scheduleResp with
        | .error (.tempoAPIError status body) =>
          ([], .ok (.apiError status body))
        | .error e => ([], .error e)
        | .ok schedule =>
          let required_seconds := schedule.requiredSeconds.getD 0
          if required_seconds == 0 && !args.force then
            ([], .ok (.zeroRequiredWarning parsed_date))
          else
            match get_worklogs_for_date env.worklogsResp account_id with
            | .error (.tempoAPIError status body) =>
              ([], .ok (.apiError status body))
            | .error e => ([], .error e)
            | .ok existing =>
              if !existing.isEmpty && !args.force then
                ([], .ok (.alreadyLoggedWarning existing.length parsed_date))
              else
                match cfg.issueIds with
                | none => ([], .error (.keyError "issueIds"))
                | some issueIds =>
                  let run := logEntries env issueIds required_seconds
                    args.description account_id parsed_date preset_entries 0
                  match run.2 with
                  | .error (.tempoAPIError status body) =>
                    (run.1, .ok (.apiError status body))
                  | .error e => (run.1, .error e)
                  | .ok logged =>
                    let for_label :=
                      if person_label ≠ "you" then some person_label else none
                    (run.1, .ok (.success required_seconds for_label
                      parsed_date logged))

/-- Source `tempo_api.BASE_URL`. -/
def BASE_URL : String := "https://api.tempo.io/4"

/-- Reverse lookup of the issue-id to issue-key direction, modelling
`reverse = \x7bv: k for k, v in issue_ids.items()\x7d` followed by
`reverse.get(issue_id, f"id:\x7bissue_id\x7d")`: for duplicate values the later
pair wins, and a missing (or `None`) id falls back to the `id:` label. -/
def reverseKey (issueIds : List (String × Int)) (issue_id : Option Int) : String :=
  match issue_id with
  | some i =>
    match issueIds.reverse.find? (fun p => p.2 == i) with
    | some p => p.1
    | none => "id:" ++ toString i
  | none => "id:None"

/-- One output line of `tempo_get_workload`, one constructor per
`lines.append` in the source, carrying the interpolated data. -/
inductive WorkloadLine where
  | header (date : String) (forLabel : Option String) (dayType : String)
  | expected (requiredSeconds : Nat)
  | blank
  | loggedHeader (count : Nat)
  | entry (issueKey : String) (seconds : Nat) (description : String)
  | totalLogged (seconds : Nat)
  | statusFully
  | statusRemaining (remainingSeconds : Nat)
  | noWorklogs
  deriving DecidableEq

/-- The result of `tempo_get_workload`, one constructor per `return`. -/
inductive WorkloadResult where
  | configError (e : Exc)
  | resolveError (kind : ResolveFailure)
  | apiError (status : Nat) (body : String)
  | report (lines : List WorkloadLine)

/-- Source `mcp_server.tempo_get_workload`: fetch schedule and worklogs,
render header, expected hours, per-entry lines with reverse issue-key
lookup, the logged total and a status line — or `noWorklogs` when the
filtered worklog list is empty. -/
def tempo_get_workload (cfg? : Except Exc Config) (today : PyDate) (env : Env)
    (date person : String) : Except Exc WorkloadResult :=
  match cfg? with
  | .error e => .ok (.configError e)
  | .ok cfg =>
    let parsed_date := parse_date today (some date)
    match resolve_person cfg env.jiraSearchResp person with
    | .error (.valueError k) => .ok (.resolveError k)
    | .error e => .error e
    | .ok (account_id, person_label) =>
      match get_user_schedule env.scheduleResp with
      | .error (.tempoAPIError status body) => .ok (.apiError status body)
      | .error e => .error e
      | .ok schedule =>
        let required_seconds := schedule.requiredSeconds.getD 0
        let day_type := schedule.dayType.getD "UNKNOWN"
        match get_worklogs_for_date env.worklogsResp account_id with
        | .error (.tempoAPIError status body) => .ok (.apiError status body)
        | .error e => .error e
        | .ok worklogs =>
          let for_label := if person_label ≠ "you" then some person_label else none
          let base : List WorkloadLine :=
            [.header parsed_date for_label day_type,
             .expected required_seconds, .blank]
          if !worklogs.isEmpty then
            let issueIds := cfg.issueIds.getD []
            let entries := worklogs.map (fun wl =>
              WorkloadLine.entry (reverseKey issueIds wl.issueId)
                (wl.timeSpentSeconds.getD 0) (wl.description.getD ""))
            let total_logged := (worklogs.map (fun wl => wl.timeSpentSeconds.getD 0)).sum
            let status : WorkloadLine :=
              if total_logged ≥ required_seconds then .statusFully
              else .statusRemaining (required_seconds - total_logged)
            .ok (.report (base ++ WorkloadLine.loggedHeader worklogs.length ::
              entries ++ [.totalLogged total_logged, .blank, status]))
          else
            .ok (.report (base ++ [.noWorklogs]))

/-- Source `tempo_get_config`, token redaction: last 4 characters behind
`****` when the token is longer than 4 characters, the fixed mask `****`
otherwise (`token[-4:]` is the last four characters). -/
def redactToken (token : String) : String :=
  if token.length > 4 then "****" ++ token.drop (token.length - 4)
  else "****"

/-- The result of `tempo_get_config`: the setup-instructions branch on a
configuration error, or the rendered summary (redacted token, account id
with its `"?"` default, base URL with its `BASE_URL` default, the issue
mappings and per-preset `key (pct%)` summaries). -/
inductive ConfigResult where
  | configError (e : Exc)
  | report (token : String) (accountId : String) (baseUrl : String)
      (issueIds : List (String × Int))
      (presets : List (String × List (String × Nat)))
  deriving DecidableEq

/-- Source `mcp_server.tempo_get_config`: no remote calls, never raises. -/
def tempo_get_config (cfg? : Except Exc Config) : ConfigResult :=
  match cfg? with
  | .error e => .configError e
  | .ok cfg =>
    .report (redactToken cfg.tempoToken) (cfg.accountId.getD "?")
      (cfg.baseUrl.getD BASE_URL) (cfg.issueIds.getD [])
      (cfg.presets.map (fun p =>
        (p.1, p.2.map (fun e => (e.issueKey, e.percentage)))))

/-- The result of `tempo_search_user`, one constructor per `return`;
`found` lists display name, email and account id of each active match. -/
inductive SearchResult where
  | configError (e : Exc)
  | credsMissing
  | searchFailed (status : Nat) (body : String)
  | noMatches (name : String)
  | found (name : String) (users : List (String × String × String))
  deriving DecidableEq

/-- Source `mcp_server.tempo_search_user`: requires truthy Jira
credentials, searches (catching only `TempoAPIError` — a `KeyError` from
the search escapes the command uncaught), filters to active users. -/
def tempo_search_user (cfg? : Except Exc Config) (env : Env)
    (name : String) : Except Exc SearchResult :=
  match cfg? with
  | .error e => .ok (.configError e)
  | .ok cfg =>
    if !(strTruthy cfg.jiraBaseUrl && strTruthy cfg.jiraEmail
        && strTruthy cfg.jiraToken) then
      .ok .credsMissing
    else
      match search_jira_users env.jiraSearchResp with
      | .error (.tempoAPIError status body) => .ok (.searchFailed status body)
      | .error e => .error e
      | .ok users =>
        let active := users.filter (fun u => u.active)
        if active.isEmpty then .ok (.noMatches name)
        else .ok (.found name (active.map (fun u =>
          (u.displayName, u.emailAddress, u.accountId))))

/-! ## Verification -/

/-- C6: `parse_date` maps `None`, `""` and `"today"` to the current local
date as an ISO string (all equal within one invocation), `"yesterday"` to
the current local date minus exactly one day, and returns every other
string unchanged with no format validation. -/
theorem c6_parse_date :
    (∀ today : PyDate,
      parse_date today none = today.isoformat ∧
      parse_date today (some "") = today.isoformat ∧
      parse_date today (some "today") = today.isoformat ∧
      parse_date today (some "yesterday") = today.pred.isoformat) ∧
    (∀ (today : PyDate) (s : String),
      s ≠ "" → s ≠ "today" → s ≠ "yesterday" →
      parse_date today (some s) = s) := by
  constructor
  · intro today
    refine ⟨rfl, by simp [parse_date], by simp [parse_date], by simp [parse_date]⟩
  · intro today s h1 h2 h3
    simp [parse_date, h1, h2, h3]

/-- Witness for C6 at the concrete input `"2024-03-01"`. -/
theorem c6_parse_date_witness :
    parse_date ⟨2024, 3, 5⟩ (some "2024-03-01") = "2024-03-01" :=
  c6_parse_date.2 ⟨2024, 3, 5⟩ "2024-03-01" (by decide) (by decide) (by decide)

/-- C7: `get_worklogs_for_date` returns exactly the worklogs of the
response whose author account id equals the requested one, in their
original order, and the empty list when none match. -/
theorem c7_worklog_filter (results : List RawWorklog) (acct : String)
    (l : List RawWorklog)
    (hl : get_worklogs_for_date (.success (some results)) acct = .ok l) :
    l = results.filter (fun wl => wl.authorId == some acct) ∧
    l.Sublist results ∧
    (∀ wl, wl ∈ l ↔ wl ∈ results ∧ wl.authorId = some acct) ∧
    ((∀ wl ∈ results, wl.authorId ≠ some acct) → l = []) := by
  have heq : l = results.filter (fun wl => wl.authorId == some acct) := by
    have : Except.ok (ε := Exc) (results.filter (fun wl => wl.authorId == some acct)) = .ok l := hl
    exact (Except.ok.inj this).symm
  subst heq
  refine ⟨rfl, List.filter_sublist _, ?_, ?_⟩
  · intro wl
    simp [List.mem_filter]
  · intro hnone
    rw [List.filter_eq_nil_iff]
    intro wl hwl
    simpa using hnone wl hwl

/-- Witness for C7: a two-element response with one matching author. -/
theorem c7_worklog_filter_witness :
    ([⟨some 1, some 10001, some 3600, some "x", some "640:me"⟩] :
        List RawWorklog).Sublist
      [⟨some 1, some 10001, some 3600, some "x", some "640:me"⟩,
       ⟨some 2, some 10002, some 1800, some "y", some "640:other"⟩] :=
  (c7_worklog_filter
    [⟨some 1, some 10001, some 3600, some "x", some "640:me"⟩,
     ⟨some 2, some 10002, some 1800, some "y", some "640:other"⟩]
    "640:me"
    [⟨some 1, some 10001, some 3600, some "x", some "640:me"⟩] rfl).2.1

/-- C9: `tempo_get_config` redacts the token to `****` plus its last four
characters when it is longer than four characters, and to the fixed mask
`****` otherwise; the rendered report carries exactly that redaction. -/
theorem c9_token_redaction :
    (∀ t : String, 4 < t.length →
      redactToken t = "****" ++ t.drop (t.length - 4)) ∧
    (∀ t : String, t.length ≤ 4 → redactToken t = "****") ∧
    redactToken "abcdEFGH1234" = "****1234" ∧
    (∀ cfg : Config, tempo_get_config (.ok cfg) =
      .report (redactToken cfg.tempoToken) (cfg.accountId.getD "?")
        (cfg.baseUrl.getD BASE_URL) (cfg.issueIds.getD [])
        (cfg.presets.map (fun p =>
          (p.1, p.2.map (fun e => (e.issueKey, e.percentage)))))) := by
  refine ⟨?_, ?_, rfl, fun cfg => rfl⟩
  · intro t h
    simp [redactToken, h]
  · intro t h
    simp [redactToken, Nat.not_lt.mpr h]

/-- Witness for C9 at the example token from the spec. -/
theorem c9_token_redaction_witness :
    redactToken "abcdEFGH1234" =
      "****" ++ ("abcdEFGH1234".drop ("abcdEFGH1234".length - 4)) :=
  c9_token_redaction.1 "abcdEFGH1234" (by decide)

/-- A configuration file lacking the `tempoToken` key. -/
def fileNoToken : ConfigFile :=
  { tempoToken := none, accountId := some "640:me", baseUrl := none
    issueIds := none, presets := [], jiraBaseUrl := none
    jiraEmail := none, jiraToken := none }

/-- A configuration file carrying the token `"filetok"`. -/
def fileWithToken : ConfigFile := { fileNoToken with tempoToken := some "filetok" }

/-- The configuration that loading `fileWithToken` without an effective
environment override yields. -/
def cfgFromFile : Config :=
  { tempoToken := "filetok", accountId := some "640:me", baseUrl := none
    issueIds := none, presets := [], jiraBaseUrl := none
    jiraEmail := none, jiraToken := none }

/-- C5 counterexample: with the token absent from the file but the
environment variable set (`"envtok"`), loading still fails with the
missing-token configuration error, because the presence check runs on the
file before the override is applied; and an environment variable that is
set to the empty string does not override the token of the file. -/
theorem c5_counterexample :
    load_config true (.ok fileNoToken) (some "envtok") =
      .error (.runtimeError .missingToken) ∧
    load_config true (.ok fileWithToken) (some "") = .ok cfgFromFile :=
  ⟨rfl, rfl⟩

/-- C5 (amended): the token key must be present in the file — loading
fails with the missing-token configuration error whenever the file lacks
it, regardless of the environment; a nonempty environment token overrides
the token of the file, while an unset or empty one leaves it unchanged; and a
configuration error is surfaced by every command as a returned result,
never as an uncaught exception. -/
theorem c5_token_loading :
    (∀ (cf : ConfigFile) (envTok : Option String), cf.tempoToken = none →
      load_config true (.ok cf) envTok = .error (.runtimeError .missingToken)) ∧
    (∀ (cf : ConfigFile) (ft et : String), cf.tempoToken = some ft → et ≠ "" →
      ∃ cfg, load_config true (.ok cf) (some et) = .ok cfg ∧
        cfg.tempoToken = et) ∧
    (∀ (cf : ConfigFile) (ft : String), cf.tempoToken = some ft →
      (∃ cfg, load_config true (.ok cf) none = .ok cfg ∧ cfg.tempoToken = ft) ∧
      (∃ cfg, load_config true (.ok cf) (some "") = .ok cfg ∧
        cfg.tempoToken = ft)) ∧
    (∀ (e : Exc) (today : PyDate) (env : Env) (args : LogArgs)
      (date person nm : String),
      tempo_log_time (.error e) today env args = ([], .ok (.configError e)) ∧
      tempo_get_workload (.error e) today env date person =
        .ok (.configError e) ∧
      tempo_get_config (.error e) = .configError e ∧
      tempo_search_user (.error e) env nm = .ok (.configError e)) := by
  refine ⟨?_, ?_, ?_, ?_⟩
  · intro cf envTok h
    simp [load_config, h]
  · intro cf ft et h het
    refine ⟨{ tempoToken := et, accountId := cf.accountId, baseUrl := cf.baseUrl
              issueIds := cf.issueIds, presets := cf.presets
              jiraBaseUrl := cf.jiraBaseUrl, jiraEmail := cf.jiraEmail
              jiraToken := cf.jiraToken }, ?_, rfl⟩
    simp [load_config, h, het]
  · intro cf ft h
    refine ⟨⟨{ tempoToken := ft, accountId := cf.accountId, baseUrl := cf.baseUrl
               issueIds := cf.issueIds, presets := cf.presets
               jiraBaseUrl := cf.jiraBaseUrl, jiraEmail := cf.jiraEmail
               jiraToken := cf.jiraToken }, ?_, rfl⟩,
            ⟨{ tempoToken := ft, accountId := cf.accountId, baseUrl := cf.baseUrl
               issueIds := cf.issueIds, presets := cf.presets
               jiraBaseUrl := cf.jiraBaseUrl, jiraEmail := cf.jiraEmail
               jiraToken := cf.jiraToken }, ?_, rfl⟩⟩ <;>
      simp [load_config, h]
  · intro e today env args date person nm
    exact ⟨rfl, rfl, rfl, rfl⟩

/-- Witness for C5: loading `fileNoToken` with no environment variable
fails with the missing-token error. -/
theorem c5_token_loading_witness :
    load_config true (.ok fileNoToken) none =
      .error (.runtimeError .missingToken) :=
  c5_token_loading.1 fileNoToken none rfl

/-- C3: person resolution — empty input yields the configured default
account with the label `"you"`; input containing a colon passes through
unchanged with the label equal to the input; a name query with exactly one
active match yields the account id and display name of that match; zero or more
than one active match yields an error (listing all candidates in the
ambiguous case); and whenever resolution fails, `tempo_log_time` attempts
no worklog-creation call. -/
theorem c3_person_resolution :
    (∀ (cfg : Config) (sr : HttpResult (List RawJiraUser)) (a : String),
      cfg.accountId = some a →
      resolve_person cfg sr "" = .ok (a, "you")) ∧
    (∀ (cfg : Config) (sr : HttpResult (List RawJiraUser)) (person : String),
      person.contains ':' = true →
      resolve_person cfg sr person = .ok (person, person)) ∧
    (∀ (cfg : Config) (sr : HttpResult (List RawJiraUser)) (person : String)
      (users : List JiraUser) (u : JiraUser),
      person ≠ "" → person.contains ':' = false →
      (strTruthy cfg.jiraBaseUrl && strTruthy cfg.jiraEmail
        && strTruthy cfg.jiraToken) = true →
      search_jira_users sr = .ok users →
      users.filter (fun x => x.active) = [u] →
      resolve_person cfg sr person = .ok (u.accountId, u.displayName)) ∧
    (∀ (cfg : Config) (sr : HttpResult (List RawJiraUser)) (person : String)
      (users : List JiraUser),
      person ≠ "" → person.contains ':' = false →
      (strTruthy cfg.jiraBaseUrl && strTruthy cfg.jiraEmail
        && strTruthy cfg.jiraToken) = true →
      search_jira_users sr = .ok users →
      users.filter (fun x => x.active) = [] →
      resolve_person cfg sr person = .error (.valueError (.noActiveMatch person))) ∧
    (∀ (cfg : Config) (sr : HttpResult (List RawJiraUser)) (person : String)
      (users : List JiraUser) (u1 u2 : JiraUser) (rest : List JiraUser),
      person ≠ "" → person.contains ':' = false →
      (strTruthy cfg.jiraBaseUrl && strTruthy cfg.jiraEmail
        && strTruthy cfg.jiraToken) = true →
      search_jira_users sr = .ok users →
      users.filter (fun x => x.active) = u1 :: u2 :: rest →
      resolve_person cfg sr person = .error (.valueError (.multipleMatches person
        ((u1 :: u2 :: rest).map (fun x => (x.displayName, x.emailAddress)))))) ∧
    (∀ (cfg : Config) (today : PyDate) (env : Env) (args : LogArgs) (e : Exc),
      resolve_person cfg env.jiraSearchResp args.person = .error e →
      (tempo_log_time (.ok cfg) today env args).1 = []) := by
  refine ⟨?_, ?_, ?_, ?_, ?_, ?_⟩
  · intro cfg sr a h
    simp [resolve_person, h]
  · intro cfg sr person h
    have hne : person ≠ "" := by
      intro he
      rw [he] at h
      exact absurd h (by simp [String.contains, String.any, String.anyAux])
    simp [resolve_person, hne, h]
  · intro cfg sr person users u hne hnc hcreds hsearch hact
    simp [resolve_person, hne, hnc, hcreds, hsearch, hact]
  · intro cfg sr person users hne hnc hcreds hsearch hact
    simp [resolve_person, hne, hnc, hcreds, hsearch, hact]
  · intro cfg sr person users u1 u2 rest hne hnc hcreds hsearch hact
    simp [resolve_person, hne, hnc, hcreds, hsearch, hact]
  · intro cfg today env args e hres
    simp only [tempo_log_time, hres]
    cases e <;> rfl

/-- Witness for C3: empty input resolves to the default account. -/
theorem c3_person_resolution_witness :
    resolve_person
      { tempoToken := "tok", accountId := some "640:me", baseUrl := none
        issueIds := none, presets := [], jiraBaseUrl := none
        jiraEmail := none, jiraToken := none }
      (.success []) "" = .ok ("640:me", "you") :=
  c3_person_resolution.1
    { tempoToken := "tok", accountId := some "640:me", baseUrl := none
      issueIds := none, presets := [], jiraBaseUrl := none
      jiraEmail := none, jiraToken := none }
    (.success []) "640:me" rfl

/-- The worklog-creation call `tempo_log_time` issues for a preset entry:
the issue id of the entry from the mapping, floor of required seconds times the
percentage over 100, the parsed date, the fixed start time, and the
description with the truthy override applied. -/
def presetCall (issueIds : List (String × Int)) (required : Nat)
    (descOverride account_id date : String) (e : PresetEntry) : CreateCall :=
  { authorAccountId := account_id
    issueId := (issueIds.lookup e.issueKey).getD 0
    timeSpentSeconds := required * e.percentage / 100
    startDate := date
    startTime := "08:00:00"
    description := if descOverride ≠ "" then descOverride else e.description }

/-- When the issue key of every preset entry is in the mapping and every
creation POST succeeds, the loop issues exactly one call per entry, in
order, and completes without an exception. -/
theorem logEntries_calls (env : Env) (issueIds : List (String × Int))
    (required : Nat) (descOverride account_id date : String)
    (es : List PresetEntry) (i : Nat)
    (hkeys : ∀ e ∈ es, (issueIds.lookup e.issueKey).isSome = true)
    (hcreate : ∀ j, (env.createResp j).isSuccess = true) :
    (logEntries env issueIds required descOverride account_id date es i).1 =
      es.map (presetCall issueIds required descOverride account_id date) ∧
    ∃ ls, (logEntries env issueIds required descOverride account_id date es i).2
      = .ok ls := by
  induction es generalizing i with
  | nil => exact ⟨rfl, [], rfl⟩
  | cons e rest ih =>
    obtain ⟨v, hv⟩ := Option.isSome_iff_exists.mp
      (hkeys e (List.mem_cons_self e rest))
    obtain ⟨r, hr⟩ : ∃ r, env.createResp i = .success r := by
      cases h : env.createResp i with
      | failure s b =>
        have := hcreate i
        rw [h] at this
        exact absurd this (by simp [HttpResult.isSuccess])
      | success r => exact ⟨r, rfl⟩
    obtain ⟨ih1, ls, ih2⟩ :=
      ih (i + 1) (fun x hx => hkeys x (List.mem_cons_of_mem e hx))
    constructor
    · simp only [logEntries, hv, hr, create_worklog, checkResponse, List.map_cons,
        ih1, presetCall, Option.getD_some]
    · refine ⟨{ issueKey := e.issueKey
                description := if descOverride ≠ "" then descOverride
                  else e.description
                seconds := required * e.percentage / 100
                worklogId := r.tempoWorklogId } :: ls, ?_⟩
      simp only [logEntries, hv, hr, create_worklog, checkResponse, ih2,
        Except.map]

/-- The creation calls `tempo_log_time` makes on its success path: one per
preset entry in preset order, with `presetCall` data, and the command
returns the success summary. -/
theorem log_time_creations (cfg : Config) (today : PyDate) (env : Env)
    (args : LogArgs) (account_id person_label : String)
    (es : List PresetEntry) (sched : ScheduleEntry)
    (issueIds : List (String × Int)) (existing : List RawWorklog)
    (h1 : resolve_person cfg env.jiraSearchResp args.person =
      .ok (account_id, person_label))
    (h2 : cfg.presets.lookup args.typ = some es)
    (h3 : get_user_schedule env.scheduleResp = .ok sched)
    (h4 : get_worklogs_for_date env.worklogsResp account_id = .ok existing)
    (h5 : (sched.requiredSeconds.getD 0 == 0 && !args.force) = false)
    (h6 : (!existing.isEmpty && !args.force) = false)
    (h7 : cfg.issueIds = some issueIds)
    (h8 : ∀ e ∈ es, (issueIds.lookup e.issueKey).isSome = true)
    (h9 : ∀ j, (env.createResp j).isSuccess = true) :
    (tempo_log_time (.ok cfg) today env args).1 =
      es.map (presetCall issueIds (sched.requiredSeconds.getD 0)
        args.description account_id (parse_date today (some args.date))) ∧
    ∃ ls, (tempo_log_time (.ok cfg) today env args).2 =
      .ok (.success (sched.requiredSeconds.getD 0)
        (if person_label ≠ "you" then some person_label else none)
        (parse_date today (some args.date)) ls) := by
  obtain ⟨hc1, ls, hc2⟩ := logEntries_calls env issueIds
    (sched.requiredSeconds.getD 0) args.description account_id
    (parse_date today (some args.date)) es 0 h8 h9
  constructor
  · simp only [tempo_log_time, h1, h2, h3, h4, h5, h6, h7, hc1, hc2,
      Bool.false_eq_true, if_false]
  · refine ⟨ls, ?_⟩
    simp only [tempo_log_time, h1, h2, h3, h4, h5, h6, h7, hc1, hc2,
      Bool.false_eq_true, if_false]

/-- The zero-required guard of `tempo_log_time`: required seconds zero and
no force flag yields the weekend/holiday warning with no creation call. -/
theorem log_time_zero_required (cfg : Config) (today : PyDate) (env : Env)
    (args : LogArgs) (account_id person_label : String)
    (es : List PresetEntry) (sched : ScheduleEntry)
    (h1 : resolve_person cfg env.jiraSearchResp args.person =
      .ok (account_id, person_label))
    (h2 : cfg.presets.lookup args.typ = some es)
    (h3 : get_user_schedule env.scheduleResp = .ok sched)
    (hreq : sched.requiredSeconds.getD 0 = 0)
    (hforce : args.force = false) :
    tempo_log_time (.ok cfg) today env args =
      ([], .ok (.zeroRequiredWarning (parse_date today (some args.date)))) := by
  simp only [tempo_log_time, h1, h2, h3, hreq, hforce]
  rfl

/-- Sum of the per-entry floor divisions is bounded by the floor division
of the summed percentages. -/
theorem sum_presetSeconds_le (R : Nat) (es : List PresetEntry) :
    (es.map (fun e => R * e.percentage / 100)).sum ≤
      R * (es.map (fun e => e.percentage)).sum / 100 := by
  induction es with
  | nil => simp
  | cons a t ih =>
    simp only [List.map_cons, List.sum_cons]
    calc R * a.percentage / 100 + (t.map (fun e => R * e.percentage / 100)).sum
        ≤ R * a.percentage / 100 +
            R * (t.map (fun e => e.percentage)).sum / 100 :=
          Nat.add_le_add_left ih _
      _ ≤ (R * a.percentage + R * (t.map (fun e => e.percentage)).sum) / 100 :=
          Nat.add_div_le_add_div _ _ _
      _ = R * (a.percentage + (t.map (fun e => e.percentage)).sum) / 100 := by
          rw [Nat.mul_add]

/-- C1: on the creation path, `tempo_log_time` issues one worklog-creation
call per preset entry, in the defined order of the preset, whose seconds are
`floor(required_seconds * percentage / 100)`; and for every entry list
whose percentages sum to at most 100 and every required seconds `R`, the
per-entry seconds sum to at most `R` (no normalisation). -/
theorem c1_preset_split :
    (∀ (cfg : Config) (today : PyDate) (env : Env) (args : LogArgs)
      (account_id person_label : String) (es : List PresetEntry)
      (sched : ScheduleEntry) (issueIds : List (String × Int))
      (existing : List RawWorklog),
      resolve_person cfg env.jiraSearchResp args.person =
        .ok (account_id, person_label) →
      cfg.presets.lookup args.typ = some es →
      get_user_schedule env.scheduleResp = .ok sched →
      get_worklogs_for_date env.worklogsResp account_id = .ok existing →
      (sched.requiredSeconds.getD 0 == 0 && !args.force) = false →
      (!existing.isEmpty && !args.force) = false →
      cfg.issueIds = some issueIds →
      (∀ e ∈ es, (issueIds.lookup e.issueKey).isSome = true) →
      (∀ j, (env.createResp j).isSuccess = true) →
      (tempo_log_time (.ok cfg) today env args).1 =
        es.map (presetCall issueIds (sched.requiredSeconds.getD 0)
          args.description account_id (parse_date today (some args.date)))) ∧
    (∀ (issueIds : List (String × Int)) (R : Nat)
      (descOverride account_id date : String) (es : List PresetEntry),
      (es.map (fun e => e.percentage)).sum ≤ 100 →
      ((es.map (presetCall issueIds R descOverride account_id date)).map
        (fun c => c.timeSpentSeconds)).sum ≤ R) := by
  constructor
  · intro cfg today env args account_id person_label es sched issueIds existing
      h1 h2 h3 h4 h5 h6 h7 h8 h9
    exact (log_time_creations cfg today env args account_id person_label es
      sched issueIds existing h1 h2 h3 h4 h5 h6 h7 h8 h9).1
  · intro issueIds R descOverride account_id date es hsum
    have hmap : ((es.map (presetCall issueIds R descOverride account_id date)).map
        (fun c => c.timeSpentSeconds)).sum =
        (es.map (fun e => R * e.percentage / 100)).sum := by
      rw [List.map_map]
      rfl
    rw [hmap]
    calc (es.map (fun e => R * e.percentage / 100)).sum
        ≤ R * (es.map (fun e => e.percentage)).sum / 100 :=
          sum_presetSeconds_le R es
      _ ≤ R * 100 / 100 :=
          Nat.div_le_div_right (Nat.mul_le_mul_left R hsum)
      _ = R := by omega

/-- Witness for C1: the end-to-end scenario of the spec — preset `usual` with a
50/50 split and 28800 required seconds yields two creation calls of 14400
seconds each. -/
theorem c1_preset_split_witness :
    (tempo_log_time
      (.ok { tempoToken := "tok", accountId := some "640:me", baseUrl := none
             issueIds := some [("CAPEX", 10001), ("OPEX", 10002)]
             presets := [("usual", [⟨"CAPEX", 50, "Dev work"⟩,
               ⟨"OPEX", 50, "Support"⟩])]
             jiraBaseUrl := none, jiraEmail := none, jiraToken := none })
      ⟨2024, 3, 1⟩
      { scheduleResp := .success (some [⟨some 28800, some "WORKING_DAY"⟩])
        worklogsResp := .success (some [])
        jiraSearchResp := .success []
        createResp := fun _ => .success ⟨some 100, none, none, none, none⟩ }
      { typ := "usual" }).1 =
      [⟨"640:me", 10001, 14400, "2024-03-01", "08:00:00", "Dev work"⟩,
       ⟨"640:me", 10002, 14400, "2024-03-01", "08:00:00", "Support"⟩] := by
  have := c1_preset_split.1
    { tempoToken := "tok", accountId := some "640:me", baseUrl := none
      issueIds := some [("CAPEX", 10001), ("OPEX", 10002)]
      presets := [("usual", [⟨"CAPEX", 50, "Dev work"⟩, ⟨"OPEX", 50, "Support"⟩])]
      jiraBaseUrl := none, jiraEmail := none, jiraToken := none }
    ⟨2024, 3, 1⟩
    { scheduleResp := .success (some [⟨some 28800, some "WORKING_DAY"⟩])
      worklogsResp := .success (some [])
      jiraSearchResp := .success []
      createResp := fun _ => .success ⟨some 100, none, none, none, none⟩ }
    { typ := "usual" } "640:me" "you"
    [⟨"CAPEX", 50, "Dev work"⟩, ⟨"OPEX", 50, "Support"⟩]
    ⟨some 28800, some "WORKING_DAY"⟩ [("CAPEX", 10001), ("OPEX", 10002)] []
    rfl rfl rfl rfl rfl rfl rfl
    (by intro e he; fin_cases he <;> rfl)
    (fun j => rfl)
  simpa using this

/-- C2: with `force = false`, a zero required-seconds schedule yields the
weekend/holiday warning and no creation call, and an existing worklog for
the account/date yields the already-logged warning carrying the existing
count and no creation call; with `force = true` creation proceeds in both
situations, one call per preset entry, and the calls are 0-second entries
when the required seconds are zero. -/
theorem c2_force_semantics :
    (∀ (cfg : Config) (today : PyDate) (env : Env) (args : LogArgs)
      (account_id person_label : String) (es : List PresetEntry)
      (sched : ScheduleEntry),
      resolve_person cfg env.jiraSearchResp args.person =
        .ok (account_id, person_label) →
      cfg.presets.lookup args.typ = some es →
      get_user_schedule env.scheduleResp = .ok sched →
      sched.requiredSeconds.getD 0 = 0 →
      args.force = false →
      tempo_log_time (.ok cfg) today env args =
        ([], .ok (.zeroRequiredWarning (parse_date today (some args.date))))) ∧
    (∀ (cfg : Config) (today : PyDate) (env : Env) (args : LogArgs)
      (account_id person_label : String) (es : List PresetEntry)
      (sched : ScheduleEntry) (existing : List RawWorklog),
      resolve_person cfg env.jiraSearchResp args.person =
        .ok (account_id, person_label) →
      cfg.presets.lookup args.typ = some es →
      get_user_schedule env.scheduleResp = .ok sched →
      get_worklogs_for_date env.worklogsResp account_id = .ok existing →
      sched.requiredSeconds.getD 0 ≠ 0 →
      existing ≠ [] →
      args.force = false →
      tempo_log_time (.ok cfg) today env args =
        ([], .ok (.alreadyLoggedWarning existing.length
          (parse_date today (some args.date))))) ∧
    (∀ (cfg : Config) (today : PyDate) (env : Env) (args : LogArgs)
      (account_id person_label : String) (es : List PresetEntry)
      (sched : ScheduleEntry) (issueIds : List (String × Int))
      (existing : List RawWorklog),
      resolve_person cfg env.jiraSearchResp args.person =
        .ok (account_id, person_label) →
      cfg.presets.lookup args.typ = some es →
      get_user_schedule env.scheduleResp = .ok sched →
      get_worklogs_for_date env.worklogsResp account_id = .ok existing →
      cfg.issueIds = some issueIds →
      (∀ e ∈ es, (issueIds.lookup e.issueKey).isSome = true) →
      (∀ j, (env.createResp j).isSuccess = true) →
      args.force = true →
      (tempo_log_time (.ok cfg) today env args).1 =
        es.map (presetCall issueIds (sched.requiredSeconds.getD 0)
          args.description account_id (parse_date today (some args.date))) ∧
      (sched.requiredSeconds.getD 0 = 0 →
        ∀ c ∈ (tempo_log_time (.ok cfg) today env args).1,
          c.timeSpentSeconds = 0)) := by
  refine ⟨?_, ?_, ?_⟩
  · intro cfg today env args account_id person_label es sched h1 h2 h3 hreq hforce
    exact log_time_zero_required cfg today env args account_id person_label es
      sched h1 h2 h3 hreq hforce
  · intro cfg today env args account_id person_label es sched existing
      h1 h2 h3 h4 hreq hne hforce
    have h5 : (sched.requiredSeconds.getD 0 == 0 && !args.force) = false := by
      simp [hreq]
    have h6 : existing.isEmpty = false := by
      cases existing with
      | nil => exact absurd rfl hne
      | cons a t => rfl
    have h7 : (sched.requiredSeconds.getD 0 == 0) = false := by
      simp [hreq]
    simp only [tempo_log_time, h1, h2, h3, h4, h5, h6, h7, hforce,
      Bool.false_eq_true, if_false, Bool.not_false, Bool.and_true, if_true]
  · intro cfg today env args account_id person_label es sched issueIds existing
      h1 h2 h3 h4 h7 h8 h9 hforce
    have h5 : (sched.requiredSeconds.getD 0 == 0 && !args.force) = false := by
      simp [hforce]
    have h6 : (!existing.isEmpty && !args.force) = false := by
      simp [hforce]
    have hmain := (log_time_creations cfg today env args account_id
      person_label es sched issueIds existing h1 h2 h3 h4 h5 h6 h7 h8 h9).1
    refine ⟨hmain, ?_⟩
    intro hreq c hc
    rw [hmain, hreq] at hc
    obtain ⟨e, _, hce⟩ := List.mem_map.mp hc
    rw [← hce]
    simp [presetCall]

/-- Witness for C2: a holiday schedule (0 required seconds) without force
warns and creates nothing. -/
theorem c2_force_semantics_witness :
    tempo_log_time
      (.ok { tempoToken := "tok", accountId := some "640:me", baseUrl := none
             issueIds := some [("CAPEX", 10001)]
             presets := [("usual", [⟨"CAPEX", 100, "Dev work"⟩])]
             jiraBaseUrl := none, jiraEmail := none, jiraToken := none })
      ⟨2024, 3, 1⟩
      { scheduleResp := .success (some [⟨some 0, some "HOLIDAY"⟩])
        worklogsResp := .success (some [])
        jiraSearchResp := .success []
        createResp := fun _ => .success ⟨some 100, none, none, none, none⟩ }
      { typ := "usual" } =
      ([], .ok (.zeroRequiredWarning "2024-03-01")) :=
  c2_force_semantics.1
    { tempoToken := "tok", accountId := some "640:me", baseUrl := none
      issueIds := some [("CAPEX", 10001)]
      presets := [("usual", [⟨"CAPEX", 100, "Dev work"⟩])]
      jiraBaseUrl := none, jiraEmail := none, jiraToken := none }
    ⟨2024, 3, 1⟩
    { scheduleResp := .success (some [⟨some 0, some "HOLIDAY"⟩])
      worklogsResp := .success (some [])
      jiraSearchResp := .success []
      createResp := fun _ => .success ⟨some 100, none, none, none, none⟩ }
    { typ := "usual" } "640:me" "you" [⟨"CAPEX", 100, "Dev work"⟩]
    ⟨some 0, some "HOLIDAY"⟩ rfl rfl rfl rfl rfl

/-- The exact line list `tempo_get_workload` renders once person,
schedule and worklogs are resolved. -/
theorem workload_lines (cfg : Config) (today : PyDate) (env : Env)
    (date person account_id person_label : String) (sched : ScheduleEntry)
    (wl : List RawWorklog)
    (h1 : resolve_person cfg env.jiraSearchResp person =
      .ok (account_id, person_label))
    (h3 : get_user_schedule env.scheduleResp = .ok sched)
    (h4 : get_worklogs_for_date env.worklogsResp account_id = .ok wl) :
    tempo_get_workload (.ok cfg) today env date person = .ok (.report (
      WorkloadLine.header (parse_date today (some date))
        (if person_label ≠ "you" then some person_label else none)
        (sched.dayType.getD "UNKNOWN") ::
      WorkloadLine.expected (sched.requiredSeconds.getD 0) ::
      WorkloadLine.blank ::
      (if !wl.isEmpty then
        WorkloadLine.loggedHeader wl.length ::
          (wl.map (fun w => WorkloadLine.entry
            (reverseKey (cfg.issueIds.getD []) w.issueId)
            (w.timeSpentSeconds.getD 0) (w.description.getD "")) ++
          [WorkloadLine.totalLogged
            ((wl.map (fun w => w.timeSpentSeconds.getD 0)).sum),
           WorkloadLine.blank,
           if (wl.map (fun w => w.timeSpentSeconds.getD 0)).sum ≥
               sched.requiredSeconds.getD 0
           then WorkloadLine.statusFully
           else WorkloadLine.statusRemaining (sched.requiredSeconds.getD 0 -
             (wl.map (fun w => w.timeSpentSeconds.getD 0)).sum)])
       else [WorkloadLine.noWorklogs]))) := by
  simp only [tempo_get_workload, h1, h3, h4]
  split
  next h => simp [h]
  next h => simp [h]

/-- C10: a schedule dictionary lacking the `requiredSeconds` key is
treated as 0 required seconds by both commands — `tempo_log_time` without
force aborts with the weekend/holiday warning and creates nothing, and
`tempo_get_workload` reports 0 expected seconds. -/
theorem c10_missing_required_key :
    (∀ (cfg : Config) (today : PyDate) (env : Env) (args : LogArgs)
      (account_id person_label : String) (es : List PresetEntry)
      (sched : ScheduleEntry),
      resolve_person cfg env.jiraSearchResp args.person =
        .ok (account_id, person_label) →
      cfg.presets.lookup args.typ = some es →
      get_user_schedule env.scheduleResp = .ok sched →
      sched.requiredSeconds = none →
      args.force = false →
      tempo_log_time (.ok cfg) today env args =
        ([], .ok (.zeroRequiredWarning (parse_date today (some args.date))))) ∧
    (∀ (cfg : Config) (today : PyDate) (env : Env)
      (date person account_id person_label : String) (sched : ScheduleEntry)
      (wl : List RawWorklog),
      resolve_person cfg env.jiraSearchResp person =
        .ok (account_id, person_label) →
      get_user_schedule env.scheduleResp = .ok sched →
      get_worklogs_for_date env.worklogsResp account_id = .ok wl →
      sched.requiredSeconds = none →
      ∃ (fl : Option String) (dt : String) (rest : List WorkloadLine),
        tempo_get_workload (.ok cfg) today env date person = .ok (.report (
          WorkloadLine.header (parse_date today (some date)) fl dt ::
          WorkloadLine.expected 0 :: WorkloadLine.blank :: rest))) := by
  constructor
  · intro cfg today env args account_id person_label es sched h1 h2 h3 hnone
      hforce
    exact log_time_zero_required cfg today env args account_id person_label es
      sched h1 h2 h3 (by rw [hnone]; rfl) hforce
  · intro cfg today env date person account_id person_label sched wl h1 h3 h4
      hnone
    have hrep := workload_lines cfg today env date person account_id
      person_label sched wl h1 h3 h4
    rw [hnone] at hrep
    exact ⟨_, _, _, hrep⟩

/-- Witness for C10: a schedule response whose dictionary has no
`requiredSeconds` key triggers the warning and no creation. -/
theorem c10_missing_required_key_witness :
    tempo_log_time
      (.ok { tempoToken := "tok", accountId := some "640:me", baseUrl := none
             issueIds := some [("CAPEX", 10001)]
             presets := [("usual", [⟨"CAPEX", 100, "Dev work"⟩])]
             jiraBaseUrl := none, jiraEmail := none, jiraToken := none })
      ⟨2024, 3, 1⟩
      { scheduleResp := .success (some [⟨none, some "HOLIDAY"⟩])
        worklogsResp := .success (some [])
        jiraSearchResp := .success []
        createResp := fun _ => .success ⟨some 100, none, none, none, none⟩ }
      { typ := "usual" } =
      ([], .ok (.zeroRequiredWarning "2024-03-01")) :=
  c10_missing_required_key.1
    { tempoToken := "tok", accountId := some "640:me", baseUrl := none
      issueIds := some [("CAPEX", 10001)]
      presets := [("usual", [⟨"CAPEX", 100, "Dev work"⟩])]
      jiraBaseUrl := none, jiraEmail := none, jiraToken := none }
    ⟨2024, 3, 1⟩
    { scheduleResp := .success (some [⟨none, some "HOLIDAY"⟩])
      worklogsResp := .success (some [])
      jiraSearchResp := .success []
      createResp := fun _ => .success ⟨some 100, none, none, none, none⟩ }
    { typ := "usual" } "640:me" "you" [⟨"CAPEX", 100, "Dev work"⟩]
    ⟨none, some "HOLIDAY"⟩ rfl rfl rfl rfl rfl

/-- The last element of a list that ends in three fixed elements after a
header and an embedded list. -/
theorem getLast_of_shape (a b c d t bl s : WorkloadLine)
    (es : List WorkloadLine) :
    (a :: b :: c :: d :: (es ++ [t, bl, s])).getLast? = some s := by
  have h : a :: b :: c :: d :: (es ++ [t, bl, s]) =
      (a :: b :: c :: d :: (es ++ [t, bl])) ++ [s] := by
    simp
  rw [h, List.getLast?_concat]

/-- C8 counterexample: with 0 required seconds and no worklogs, the sum of
logged seconds (0) is greater than or equal to the required seconds (0),
yet the output ends with the no-worklogs line, not the fully-logged status
line. -/
theorem c8_counterexample :
    tempo_get_workload
      (.ok { tempoToken := "tok", accountId := some "640:me", baseUrl := none
             issueIds := some [("CAPEX", 10001)]
             presets := [("usual", [⟨"CAPEX", 100, "Dev work"⟩])]
             jiraBaseUrl := none, jiraEmail := none, jiraToken := none })
      ⟨2024, 3, 1⟩
      { scheduleResp := .success (some [⟨some 0, some "HOLIDAY"⟩])
        worklogsResp := .success (some [])
        jiraSearchResp := .success []
        createResp := fun _ => .success ⟨some 100, none, none, none, none⟩ }
      "today" "" =
      .ok (.report [.header "2024-03-01" none "HOLIDAY", .expected 0,
        .blank, .noWorklogs]) ∧
    ([WorkloadLine.header "2024-03-01" none "HOLIDAY", .expected 0,
      .blank, .noWorklogs].getLast? = some .noWorklogs) ∧
    WorkloadLine.noWorklogs ≠ WorkloadLine.statusFully :=
  ⟨rfl, rfl, by decide⟩

/-- C8 (amended): when at least one worklog exists for the resolved
account/date, the output ends with a status line that reads fully-logged
exactly when the sum of logged seconds is at least the required seconds
and otherwise states the remaining seconds (required minus logged,
rendered as hours); when no worklog exists, the output ends with the
no-worklogs line instead. -/
theorem c8_status_line (cfg : Config) (today : PyDate) (env : Env)
    (date person account_id person_label : String) (sched : ScheduleEntry)
    (wl : List RawWorklog)
    (h1 : resolve_person cfg env.jiraSearchResp person =
      .ok (account_id, person_label))
    (h3 : get_user_schedule env.scheduleResp = .ok sched)
    (h4 : get_worklogs_for_date env.worklogsResp account_id = .ok wl) :
    (wl ≠ [] →
      ∃ L, tempo_get_workload (.ok cfg) today env date person =
          .ok (.report L) ∧
        (L.getLast? = some .statusFully ↔
          sched.requiredSeconds.getD 0 ≤
            (wl.map (fun w => w.timeSpentSeconds.getD 0)).sum) ∧
        ((wl.map (fun w => w.timeSpentSeconds.getD 0)).sum <
            sched.requiredSeconds.getD 0 →
          L.getLast? = some (.statusRemaining (sched.requiredSeconds.getD 0 -
            (wl.map (fun w => w.timeSpentSeconds.getD 0)).sum)))) ∧
    (wl = [] →
      ∃ L, tempo_get_workload (.ok cfg) today env date person =
          .ok (.report L) ∧
        L.getLast? = some .noWorklogs) := by
  have hrep := workload_lines cfg today env date person account_id
    person_label sched wl h1 h3 h4
  constructor
  · intro hne
    have hiem : wl.isEmpty = false := by
      cases wl with
      | nil => exact absurd rfl hne
      | cons a t => rfl
    rw [hiem] at hrep
    simp only [Bool.not_false, if_true] at hrep
    refine ⟨_, hrep, ?_, ?_⟩
    · rw [getLast_of_shape]
      by_cases hc : sched.requiredSeconds.getD 0 ≤
          (wl.map (fun w => w.timeSpentSeconds.getD 0)).sum
      · rw [if_pos hc]
        simp [hc]
      · rw [if_neg hc]
        simp [hc]
    · intro hlt
      rw [getLast_of_shape, if_neg (Nat.not_le.mpr hlt)]
  · intro hnil
    subst hnil
    simp only [List.isEmpty_nil, Bool.not_true, if_false] at hrep
    refine ⟨_, hrep, ?_⟩
    rfl

/-- Witness for C8: one 14400-second worklog against 28800 required
seconds ends the report with a 14400-second remaining warning. -/
theorem c8_status_line_witness :
    [WorkloadLine.header "2024-03-01" none "WORKING_DAY",
     .expected 28800, .blank, .loggedHeader 1,
     .entry "CAPEX" 14400 "Dev work", .totalLogged 14400, .blank,
     .statusRemaining 14400].getLast? =
      some (.statusRemaining (28800 - 14400)) := by
  obtain ⟨L, hL, _, hrem⟩ :=
    (c8_status_line
      { tempoToken := "tok", accountId := some "640:me", baseUrl := none
        issueIds := some [("CAPEX", 10001)]
        presets := [("usual", [⟨"CAPEX", 100, "Dev work"⟩])]
        jiraBaseUrl := none, jiraEmail := none, jiraToken := none }
      ⟨2024, 3, 1⟩
      { scheduleResp := .success (some [⟨some 28800, some "WORKING_DAY"⟩])
        worklogsResp := .success
          (some [⟨some 7, some 10001, some 14400, some "Dev work", some "640:me"⟩])
        jiraSearchResp := .success []
        createResp := fun _ => .success ⟨some 100, none, none, none, none⟩ }
      "today" "" "640:me" "you" ⟨some 28800, some "WORKING_DAY"⟩
      [⟨some 7, some 10001, some 14400, some "Dev work", some "640:me"⟩]
      rfl rfl rfl).1 (by simp)
  have h2 : (Except.ok (ε := Exc) (WorkloadResult.report
      [WorkloadLine.header "2024-03-01" none "WORKING_DAY",
       .expected 28800, .blank, .loggedHeader 1,
       .entry "CAPEX" 14400 "Dev work", .totalLogged 14400, .blank,
       .statusRemaining 14400])) = .ok (.report L) := hL
  simp only [Except.ok.injEq, WorkloadResult.report.injEq] at h2
  rw [h2]
  exact hrem (by norm_num)

end UsedTempon
